import Mathlib

/-!
# Verification of the summaid-be ingestion/extraction pipeline

Shallow embedding of the core pipeline of the `summaid-be` repository:

* `performOCRWithRetry` — the confidence-driven OCR retry controller
  (`src/services/ocr.service.ts`);
* `_downloadFile` — the multi-strategy download loop
  (`src/services/document.service.ts`);
* `_extractTextFromFile` — the per-media-type extraction dispatcher
  (`src/services/document.service.ts`);
* `initiateProcessing` — the session pipeline orchestrator
  (`src/services/document.service.ts`).

External collaborators (the OCR engine, the native PDF/DOCX parsers, the
HTTP transport, the text splitter, the LLM and the session store) are
modelled as environment values: each one is the sequence of outcomes those
collaborators produce during one run.  Text content is modelled as
`List Char` so that trimming and concatenation are plain list operations.
-/

namespace Summaid

/-- JavaScript strings holding text content, modelled as character lists. -/
abbrev JStr := List Char

/-- Model of JavaScript `String.prototype.trim()`: drop whitespace from both
ends. -/
def jsTrim (s : JStr) : JStr :=
  ((s.dropWhile Char.isWhitespace).reverse.dropWhile Char.isWhitespace).reverse

instance {ε α : Type} [DecidableEq ε] [DecidableEq α] :
    DecidableEq (Except ε α) := fun a b =>
  match a, b with
  | .error e, .error f =>
    if h : e = f then isTrue (by rw [h])
    else isFalse (fun hh => h (Except.error.inj hh))
  | .error _, .ok _ => isFalse Except.noConfusion
  | .ok _, .error _ => isFalse Except.noConfusion
  | .ok x, .ok y =>
    if h : x = y then isTrue (by rw [h])
    else isFalse (fun hh => h (Except.ok.inj hh))

/-! ## OCR retry controller (`ocr.service.ts`, `performOCRWithRetry`) -/

/-- Result of one successful OCR recognition: already-trimmed text and a
confidence score (`performOCR` in `ocr.service.ts`). -/
structure OCRResult where
  text : JStr
  confidence : ℚ
  deriving DecidableEq, Repr

/-- The best-result update of `performOCRWithRetry`
(`if (!bestResult || result.confidence > bestResult.confidence)`): keep the
strictly higher-confidence result, regardless of whether its text is empty. -/
def updateBest : Option OCRResult → OCRResult → OCRResult
  | none, r => r
  | some b, r => if b.confidence < r.confidence then r else b

/-- Exit of `performOCRWithRetry` after the attempt loop: return the best
result if any attempt produced one, otherwise throw the last error (or the
generic message when no error was recorded). -/
def finishRetry (best : Option OCRResult) (lastError : Option String) :
    Except String OCRResult :=
  match best with
  | some b => .ok b
  | none =>
    .error (match lastError with
      | some e => e
      | none => "OCR failed after all retry attempts")

/-- The attempt loop of `performOCRWithRetry`.  `attempts` is the environment:
the outcome (`performOCR` result or thrown error) of each successive attempt.
`remaining` counts attempts still allowed; `best` and `lastError` are the
loop's mutable state. -/
def performOCRWithRetryAux :
    List (Except String OCRResult) → Nat → Option OCRResult → Option String →
      Except String OCRResult
  | _, 0, best, lastError => finishRetry best lastError
  | [], _ + 1, best, lastError => finishRetry best lastError
  | .ok result :: rest, r + 1, best, lastError =>
    if 70 ≤ result.confidence ∧ 0 < result.text.length then
      .ok result
    else
      let newBest := updateBest best result
      if r = 0 then .ok newBest
      else performOCRWithRetryAux rest r (some newBest) lastError
  | .error e :: rest, r + 1, best, _ =>
    performOCRWithRetryAux rest r best (some e)

/-- Model of `performOCRWithRetry(imageData, mimeType, maxRetries)` of
`ocr.service.ts`, with the successive attempt outcomes given by the
environment list `attempts`. -/
def performOCRWithRetry (attempts : List (Except String OCRResult))
    (maxRetries : Nat) : Except String OCRResult :=
  performOCRWithRetryAux attempts maxRetries none none

/-! ## Download manager (`document.service.ts`, `_downloadFile`) -/

/-- Outcome of invoking one download strategy: a thrown transport error, a
response with no `data`, or a response carrying a byte payload. -/
abbrev StrategyOutcome := Except String (Option (List Nat))

/-- The `lastError?.message` interpolation of `_downloadFile`: JavaScript
renders an absent error as the string `undefined`. -/
def lastErrorMessage : Option String → String
  | some e => e
  | none => "undefined"

/-- The strategy loop of `_downloadFile`.  `outcomes` is the environment: the
outcome of each strategy invocation in order.  Besides the result, the model
counts how many strategies were actually invoked (each invocation consumes one
strategy slot).  An in-loop throw (`Downloaded file is empty`, `No data
received`, or a transport error) is caught by the loop's own handler, recorded
as `lastError`, and the next strategy is tried. -/
def downloadFileAux (fileName : String) :
    List StrategyOutcome → Option String → Nat →
      Except String (List Nat) × Nat
  | [], lastError, tried =>
    (.error ("All download strategies failed for " ++ fileName ++
      ". Last error: " ++ lastErrorMessage lastError), tried)
  | .ok (some data) :: rest, _, tried =>
    if data.length = 0 then
      downloadFileAux fileName rest
        (some ("Downloaded file is empty: " ++ fileName)) (tried + 1)
    else
      (.ok data, tried + 1)
  | .ok none :: rest, _, tried =>
    downloadFileAux fileName rest
      (some ("No data received for " ++ fileName)) (tried + 1)
  | .error e :: rest, _, tried =>
    downloadFileAux fileName rest (some e) (tried + 1)

/-- Model of `_downloadFile(url, fileName)` of `document.service.ts`: run the ordered
strategies (the source has exactly two: the hardened axios instance, then
plain axios).  Returns the result together with the number of strategy slots
consumed. -/
def downloadFileRun (outcomes : List StrategyOutcome) (fileName : String) :
    Except String (List Nat) × Nat :=
  downloadFileAux fileName outcomes none 0

/-- Result of `_downloadFile`, forgetting the strategy count. -/
def downloadFile (outcomes : List StrategyOutcome) (fileName : String) :
    Except String (List Nat) :=
  (downloadFileRun outcomes fileName).1

/-! ## Extraction dispatcher (`document.service.ts`, `_extractTextFromFile`) -/

/-- Model of JavaScript `String.prototype.startsWith`, computed on the
character lists so that concrete instances evaluate in the kernel. -/
def jsStartsWith (s p : String) : Bool :=
  s.toList.take p.toList.length == p.toList

/-- Environment of one `_extractTextFromFile` call: the behavior of the
external parsers on this file's bytes.  `pdfParse` is the native PDF parse
(`pdf-parse`), `docx` the native word-processor parse (`mammoth`), `utf8` the
result of `fileBuffer.toString("utf8")` (which does not throw), and
`ocrAttempts` the successive outcomes of the single `performOCRWithRetry`
call a path may make. -/
structure ExtractEnv where
  pdfParse : Except String JStr
  docx : Except String JStr
  ocrAttempts : List (Except String OCRResult)
  utf8 : JStr

/-- Final guard of `_extractTextFromFile` (`if (!extractedText ||
extractedText.trim().length === 0)`), reached after each branch's own check. -/
def finalCheck (fileName : String) (t : JStr) : Except String JStr :=
  if (jsTrim t).length = 0 then
    .error ("No text content could be extracted from " ++ fileName)
  else
    .ok t

/-- Model of `_extractTextFromFile(fileBuffer, fileDetail)` of `document.service.ts`.
The outer `try/catch` only logs and rethrows, so errors propagate unchanged.
Note that in the `application/pdf` branch the OCR fallback runs only when the
native parse THROWS; a successful native parse with empty text goes straight
to the emptiness check. -/
def extractTextFromFile (env : ExtractEnv) (fileName mimeType : String) :
    Except String JStr :=
  if jsStartsWith mimeType "image/" then
    match performOCRWithRetry env.ocrAttempts 3 with
    | .error e => .error e
    | .ok r =>
      if (jsTrim r.text).length = 0 then
        .error ("OCR extracted no text from " ++ fileName)
      else finalCheck fileName r.text
  else if mimeType = "application/pdf" then
    match env.pdfParse with
    | .ok t =>
      if (jsTrim t).length = 0 then
        .error ("No text or OCR text extracted from PDF: " ++ fileName)
      else finalCheck fileName t
    | .error _ =>
      match performOCRWithRetry env.ocrAttempts 2 with
      | .error e => .error e
      | .ok r =>
        if (jsTrim r.text).length = 0 then
          .error ("No text or OCR text extracted from PDF: " ++ fileName)
        else finalCheck fileName r.text
  else if mimeType =
      "application/vnd.openxmlformats-officedocument.wordprocessingml.document"
      ∨ mimeType = "application/msword" then
    match env.docx with
    | .error e => .error e
    | .ok t =>
      if (jsTrim t).length = 0 then
        .error ("No text extracted from Word document: " ++ fileName)
      else finalCheck fileName t
  else if mimeType =
      "application/vnd.openxmlformats-officedocument.presentationml.presentation"
      ∨ mimeType = "application/vnd.ms-powerpoint" then
    match performOCRWithRetry env.ocrAttempts 2 with
    | .error e => .error e
    | .ok r =>
      if (jsTrim r.text).length = 0 then
        .error ("No text or OCR text extracted from PowerPoint: " ++ fileName)
      else finalCheck fileName r.text
  else if jsStartsWith mimeType "text/" then
    if (jsTrim env.utf8).length = 0 then
      .error ("Empty text file: " ++ fileName)
    else finalCheck fileName env.utf8
  else
    -- Unknown type: plain-text attempt; its in-`try` emptiness throw is
    -- caught by the same `catch`, which runs the OCR fallback.
    if (jsTrim env.utf8).length = 0 then
      match performOCRWithRetry env.ocrAttempts 2 with
      | .error e => .error e
      | .ok r =>
        if (jsTrim r.text).length = 0 then
          .error ("OCR fallback also failed for " ++ fileName ++ ".")
        else finalCheck fileName r.text
    else finalCheck fileName env.utf8

/-! ## Session pipeline orchestrator (`document.service.ts`,
`initiateProcessing`) -/

/-- A flashcard produced by the content generator. -/
structure Flashcard where
  question : String
  answer : String
  deriving DecidableEq, Repr

/-- What `_generateContentWithLLM` hands back for one run (an external
collaborator of the orchestrator; each field degrades independently on LLM
failure inside that helper). -/
structure GenOutput where
  summary : Option String
  flashcards : List Flashcard
  studyGuide : Option String
  deriving DecidableEq, Repr

/-- The document-processing preferences stored on a session. -/
structure Prefs where
  generateFlashcards : Bool
  generateStudyGuide : Bool
  generateSummary : Bool
  deriving DecidableEq, Repr

/-- The session row as far as the orchestrator reads it: owning user, the
ordered file names, and the preferences passed to content generation. -/
structure Session where
  user_id : String
  files : List String
  preferences : Prefs
  deriving DecidableEq, Repr

/-- One `db.from("sessions").update(...)` call issued by
`initiateProcessing`, restricted to the fields each call writes. -/
inductive DbUpdate where
  /-- Step 2: `status: "processing", error_message: null`. -/
  | processing
  /-- Step 7: the final result update. -/
  | final (status : String) (summary : Option String)
      (flashcards : List Flashcard) (studyGuide : Option String)
      (totalTextLength totalChunks : Nat)
      (successfulFiles : List String)
      (processingErrors : Option (List String))
  /-- The catch block: `status: "failed", error_message: msg`. -/
  | failed (errorMessage : String)
  deriving DecidableEq, Repr

/-- The status string a `DbUpdate` writes to the session row. -/
def DbUpdate.statusOf : DbUpdate → String
  | .processing => "processing"
  | .final s _ _ _ _ _ _ _ => s
  | .failed _ => "failed"

/-- Environment of one `initiateProcessing` run: the behavior of the session
store, the per-file download+extraction pipeline, the text splitter and the
content generator during that run. -/
structure OrchEnv where
  /-- Outcome of the session fetch: store error, no row, or the row. -/
  fetch : Except String (Option Session)
  /-- Store error (if any) of the status→`processing` update. -/
  updateProcessingError : Option String
  /-- Per-file outcome of `_downloadFile` followed by
  `_extractTextFromFile`, in file order: the thrown message or the
  extracted text. -/
  fileResults : List (Except String JStr)
  /-- `RecursiveCharacterTextSplitter.createDocuments` on one file's text:
  the chunk list (an external collaborator). -/
  splitText : JStr → List JStr
  /-- What `_generateContentWithLLM` returns for this run. -/
  gen : GenOutput
  /-- Store error (if any) of the final result update. -/
  finalUpdateError : Option String

/-- In-memory accumulation of the per-file loop. -/
structure PFRes where
  fullText : JStr
  totalChunks : Nat
  processingErrors : List String
  successfulFiles : List String
  deriving Repr

/-- The per-file loop of `initiateProcessing` (steps 3 of the spec): each
file either contributes its text, chunks and name to the success side, or —
when the pipeline threw, or returned text that trims to empty — exactly one
`Failed to process …` message to the error list.  Processing continues past
failures. -/
def processFiles (split : JStr → List JStr) :
    List (String × Except String JStr) → PFRes
  | [] => ⟨[], 0, [], []⟩
  | (name, r) :: rest =>
    let tail := processFiles split rest
    match r with
    | .ok t =>
      if 0 < (jsTrim t).length then
        ⟨t ++ ('\n' :: '\n' :: []) ++ tail.fullText,
          (split t).length + tail.totalChunks,
          tail.processingErrors, name :: tail.successfulFiles⟩
      else
        ⟨tail.fullText, tail.totalChunks,
          ("Failed to process " ++ name ++ ": No text content extracted from "
            ++ name ++ ".") :: tail.processingErrors,
          tail.successfulFiles⟩
    | .error e =>
      ⟨tail.fullText, tail.totalChunks,
        ("Failed to process " ++ name ++ ": " ++ e) :: tail.processingErrors,
        tail.successfulFiles⟩

/-- The value `initiateProcessing` returns to its caller on success. -/
structure RunResult where
  successfulFiles : List String
  errors : Option (List String)
  totalTextLength : Nat
  deriving DecidableEq, Repr

/-- Observable trace of one `initiateProcessing` run: the session-store
update calls issued, whether the content generator was invoked, and the
returned value or (re)thrown error. -/
structure RunTrace where
  updates : List DbUpdate
  llmCalled : Bool
  result : Except String RunResult
  deriving Repr

/-- The catch block of `initiateProcessing`: issue a `failed`-status update
carrying the captured message (its own store error, if any, is swallowed)
and rethrow the original error. -/
def runFailed (prior : List DbUpdate) (llmCalled : Bool) (msg : String) :
    RunTrace :=
  { updates := prior ++ [.failed msg], llmCalled := llmCalled,
    result := .error msg }

/-- Model of `initiateProcessing(sessionId, userId)` of `document.service.ts`
(the Supabase variant).  `env` supplies the collaborator outcomes of the run;
the trace records every update call issued against the session row. -/
def initiateProcessing (env : OrchEnv) (sessionId userId : String) :
    RunTrace :=
  match env.fetch with
  | .error m => runFailed [] false ("Failed to fetch session: " ++ m)
  | .ok none => runFailed [] false "Session not found."
  | .ok (some sessionData) =>
    if sessionData.user_id ≠ userId then
      runFailed [] false "Unauthorized: Session does not belong to this user."
    else
      match env.updateProcessingError with
      | some m =>
        runFailed [.processing] false ("Failed to update session status: " ++ m)
      | none =>
        let acc := processFiles env.splitText
          (sessionData.files.zip env.fileResults)
        if (jsTrim acc.fullText).length = 0 then
          runFailed [.processing] false
            ("No text content could be extracted from any of the uploaded files. Errors: "
              ++ String.intercalate "; " acc.processingErrors)
        else
          let finalStatus :=
            if 0 < acc.processingErrors.length then "completed_with_errors"
            else "completed"
          let upd := DbUpdate.final finalStatus env.gen.summary
            env.gen.flashcards env.gen.studyGuide acc.fullText.length
            acc.totalChunks acc.successfulFiles
            (if 0 < acc.processingErrors.length then some acc.processingErrors
             else none)
          match env.finalUpdateError with
          | some m =>
            runFailed [.processing, upd] true ("Failed to update session: " ++ m)
          | none =>
            { updates := [.processing, upd], llmCalled := true,
              result := .ok
                { successfulFiles := acc.successfulFiles,
                  errors :=
                    if 0 < acc.processingErrors.length then
                      some acc.processingErrors
                    else none,
                  totalTextLength := acc.fullText.length } }

/-! ## Download manager claims -/

/-- A strategy invocation counts as failed when it throws, returns no data,
or returns a zero-byte payload. -/
def strategyFails : StrategyOutcome → Prop
  | .ok (some data) => data = []
  | .ok none => True
  | .error _ => True

/-- The `lastError` message a failing strategy outcome leaves behind. -/
def strategyFailMessage (fileName : String) : StrategyOutcome → String
  | .ok (some _) => "Downloaded file is empty: " ++ fileName
  | .ok none => "No data received for " ++ fileName
  | .error e => e

/-! ## Orchestrator claims -/

/-- A per-file pipeline outcome counts as successful when it returned text
that is non-empty after trimming (the loop's
`fileText && fileText.trim().length > 0` test). -/
def okNonempty : Except String JStr → Bool
  | .ok t => decide (0 < (jsTrim t).length)
  | .error _ => false

/-- The `Failed to process …` message the loop records for a failing file. -/
def fileErrorMessage : String × Except String JStr → String
  | (name, .ok _) =>
    "Failed to process " ++ name ++ ": No text content extracted from " ++
      name ++ "."
  | (name, .error e) => "Failed to process " ++ name ++ ": " ++ e

/-- The in-memory accumulation a run over session `s` computes. -/
def orchAcc (env : OrchEnv) (s : Session) : PFRes :=
  processFiles env.splitText (s.files.zip env.fileResults)

/-- Number of files of session `s` whose pipeline outcome is successful with
non-empty text (the `M` of the spec's terminal-status property). -/
def successCount (env : OrchEnv) (s : Session) : Nat :=
  (s.files.zip env.fileResults).countP (fun p => okNonempty p.2)

/-- The status carried by the last session update a run issued. -/
def terminalStatus (tr : RunTrace) : Option String :=
  tr.updates.getLast?.map DbUpdate.statusOf

/-- The final result update (step 7) a run over session `s` issues when the
aggregate text is non-empty. -/
def finalUpdateOf (env : OrchEnv) (s : Session) : DbUpdate :=
  .final
    (if 0 < (orchAcc env s).processingErrors.length then
      "completed_with_errors" else "completed")
    env.gen.summary env.gen.flashcards env.gen.studyGuide
    (orchAcc env s).fullText.length (orchAcc env s).totalChunks
    (orchAcc env s).successfulFiles
    (if 0 < (orchAcc env s).processingErrors.length then
      some (orchAcc env s).processingErrors else none)

/-- A healthy one-file session whose single file extracts successfully. -/
def sessionA : Session :=
  { user_id := "u1", files := ["a.txt"], preferences := ⟨true, true, true⟩ }

/-- Environment for `sessionA`: the file extracts to `"hello"`. -/
def envA : OrchEnv :=
  { fetch := .ok (some sessionA), updateProcessingError := none,
    fileResults := [.ok "hello".toList], splitText := fun t => [t],
    gen := ⟨some "sum", [], none⟩, finalUpdateError := none }

/-- Environment whose session fetch fails outright. -/
def envFail : OrchEnv :=
  { fetch := .error "db down", updateProcessingError := none,
    fileResults := [], splitText := fun _ => [], gen := ⟨none, [], none⟩,
    finalUpdateError := none }

/-- A session owned by `alice`. -/
def sessionB : Session :=
  { user_id := "alice", files := [], preferences := ⟨false, false, false⟩ }

/-- Environment serving `sessionB`. -/
def envB : OrchEnv :=
  { fetch := .ok (some sessionB), updateProcessingError := none,
    fileResults := [], splitText := fun _ => [], gen := ⟨none, [], none⟩,
    finalUpdateError := none }

/-- A two-file session: one file extracts, one fails. -/
def sessionC : Session :=
  { user_id := "u1", files := ["a.txt", "b.pdf"],
    preferences := ⟨true, false, false⟩ }

/-- Environment for `sessionC`: first file yields `"hello"`, second
throws `boom`. -/
def envC : OrchEnv :=
  { fetch := .ok (some sessionC), updateProcessingError := none,
    fileResults := [.ok "hello".toList, .error "boom"],
    splitText := fun t => [t], gen := ⟨some "s", [], none⟩,
    finalUpdateError := none }

/-! ## Theorems -/

/-- The trim `jsTrim s` is empty exactly when every character of `s` is whitespace. -/
theorem jsTrim_eq_nil_iff (s : JStr) :
    jsTrim s = [] ↔ ∀ c ∈ s, Char.isWhitespace c = true := by
  unfold jsTrim
  rw [List.reverse_eq_nil_iff, List.dropWhile_eq_nil_iff]
  constructor
  · intro h c hc
    rw [← List.takeWhile_append_dropWhile (p := Char.isWhitespace) (l := s)]
      at hc
    rcases List.mem_append.mp hc with h1 | h2
    · exact List.mem_takeWhile_imp h1
    · exact h c (List.mem_reverse.mpr h2)
  · intro h c hc
    exact h c ((List.dropWhile_sublist _).subset (List.mem_reverse.mp hc))

/-- If some character of `s` is not whitespace then `jsTrim s` is nonempty. -/
theorem jsTrim_ne_nil_of_mem {s : JStr} {c : Char}
    (hc : c ∈ s) (hw : Char.isWhitespace c = false) : jsTrim s ≠ [] := by
  intro h
  have hws := (jsTrim_eq_nil_iff s).mp h c hc
  rw [hws] at hw
  exact Bool.noConfusion hw

/-! ## Lemmas about the OCR retry loop -/

/-- One low-quality successful attempt with attempts still remaining: the
loop updates the best result and retries. -/
theorem retryAux_step_low (result : OCRResult)
    (rest : List (Except String OCRResult)) (r : Nat)
    (best : Option OCRResult) (lastError : Option String) (hr : r ≠ 0)
    (hlow : ¬(70 ≤ result.confidence ∧ 0 < result.text.length)) :
    performOCRWithRetryAux (.ok result :: rest) (r + 1) best lastError =
      performOCRWithRetryAux rest r (some (updateBest best result)) lastError := by
  simp [performOCRWithRetryAux, hlow, hr]

/-- An attempt at or above the 70 threshold with non-empty text returns
immediately, whatever attempts would remain. -/
theorem retryAux_accept (result : OCRResult)
    (rest : List (Except String OCRResult)) (r : Nat)
    (best : Option OCRResult) (lastError : Option String)
    (hc : 70 ≤ result.confidence) (ht : 0 < result.text.length) :
    performOCRWithRetryAux (.ok result :: rest) (r + 1) best lastError =
      .ok result := by
  simp [performOCRWithRetryAux, hc, ht]

/-- A low-quality successful attempt on the final allowed attempt returns the
tracked best result (updated with this attempt). -/
theorem retryAux_last (result : OCRResult)
    (rest : List (Except String OCRResult))
    (best : Option OCRResult) (lastError : Option String)
    (hlow : ¬(70 ≤ result.confidence ∧ 0 < result.text.length)) :
    performOCRWithRetryAux (.ok result :: rest) 1 best lastError =
      .ok (updateBest best result) := by
  simp [performOCRWithRetryAux, hlow]

/-- A raising attempt records the error as `lastError` and retries. -/
theorem retryAux_error (e : String)
    (rest : List (Except String OCRResult)) (r : Nat)
    (best : Option OCRResult) (lastError : Option String) :
    performOCRWithRetryAux (.error e :: rest) (r + 1) best lastError =
      performOCRWithRetryAux rest r best (some e) := rfl

/-- C6: in `performOCRWithRetry` an attempt whose confidence reaches the 70%
threshold with non-empty text is returned immediately and later attempts
never run: with attempt confidences 40, 55, 72 the 72-confidence result is
returned no matter what further attempt outcomes (`rest`) the environment
would have produced. -/
theorem ocr_retry_returns_at_threshold (t1 t2 t3 : JStr)
    (rest : List (Except String OCRResult)) (maxRetries : Nat)
    (h3 : 0 < t3.length) (hmax : 3 ≤ maxRetries) :
    performOCRWithRetry
      ([.ok ⟨t1, 40⟩, .ok ⟨t2, 55⟩, .ok ⟨t3, 72⟩] ++ rest) maxRetries =
      .ok ⟨t3, 72⟩ := by
  have hm : maxRetries = (maxRetries - 3) + 3 := by omega
  rw [hm]
  unfold performOCRWithRetry
  rw [show (maxRetries - 3) + 3 = ((maxRetries - 3) + 2) + 1 from rfl,
    List.cons_append,
    retryAux_step_low _ _ _ _ _ (by omega)
      (fun h => absurd h.1 (by norm_num)),
    show (maxRetries - 3) + 2 = ((maxRetries - 3) + 1) + 1 from rfl,
    List.cons_append,
    retryAux_step_low _ _ _ _ _ (by omega)
      (fun h => absurd h.1 (by norm_num)),
    List.cons_append,
    retryAux_accept _ _ _ _ _ (by norm_num) h3]

/-- Witness for `ocr_retry_returns_at_threshold` at concrete inputs. -/
theorem ocr_retry_returns_at_threshold_witness :
    performOCRWithRetry
      ([.ok ⟨"a".toList, 40⟩, .ok ⟨"b".toList, 55⟩, .ok ⟨"c".toList, 72⟩] ++
        [.ok ⟨"d".toList, 99⟩]) 3 = .ok ⟨"c".toList, 72⟩ :=
  ocr_retry_returns_at_threshold "a".toList "b".toList "c".toList
    [.ok ⟨"d".toList, 99⟩] 3 (by decide) (by decide)

/-- C3 (counterexample): the tracked best result of `performOCRWithRetry` is
NOT restricted to non-empty results — an empty result with confidence 80
wins over a later non-empty result with confidence 60 and is returned, even
though a non-empty result was seen. -/
theorem ocr_retry_best_tracking_counterexample :
    performOCRWithRetry [.ok ⟨[], 80⟩, .ok ⟨"ab".toList, 60⟩] 2 =
        .ok ⟨[], 80⟩ ∧
      (([] : JStr).length = 0 ∧ 0 < "ab".toList.length) := by
  decide

/-- C3 (amended): the tracked best result is the highest-confidence result
seen so far regardless of text emptiness; with `maxRetries = 3` and attempt
confidences 40, 55, 60 (all below the 70 threshold) the controller returns
the 60-confidence result — the best seen — rather than failing.  The second
conjunct records that emptiness is ignored by the tracking. -/
theorem ocr_retry_returns_best_after_exhaustion :
    (∀ t1 t2 t3 : JStr,
      performOCRWithRetry
        [.ok ⟨t1, 40⟩, .ok ⟨t2, 55⟩, .ok ⟨t3, 60⟩] 3 = .ok ⟨t3, 60⟩) ∧
    performOCRWithRetry [.ok ⟨[], 80⟩, .ok ⟨"hi".toList, 60⟩] 2 =
      .ok ⟨[], 80⟩ := by
  constructor
  · intro t1 t2 t3
    unfold performOCRWithRetry
    rw [show (3 : Nat) = 2 + 1 from rfl,
      retryAux_step_low _ _ _ _ _ (by omega)
        (fun h => absurd h.1 (by norm_num)),
      show (2 : Nat) = 1 + 1 from rfl,
      retryAux_step_low _ _ _ _ _ (by omega)
        (fun h => absurd h.1 (by norm_num)),
      retryAux_last _ _ _ _ (fun h => absurd h.1 (by norm_num))]
    norm_num [updateBest]
  · decide

/-- C7: with the source's two download strategies, (1) a first strategy that
returns a non-empty payload is returned without consulting the second; (2)
when the first strategy fails — including by returning a zero-byte payload
despite transport success — the second strategy's non-empty payload is
returned; (3) when both fail the download raises the aggregate error whose
message carries the last underlying error. -/
theorem download_strategies_ordered :
    (∀ (o2 : StrategyOutcome) (d1 : List Nat) (name : String), d1 ≠ [] →
      downloadFile [.ok (some d1), o2] name = .ok d1) ∧
    (∀ (o1 : StrategyOutcome) (d2 : List Nat) (name : String),
      strategyFails o1 → d2 ≠ [] →
      downloadFile [o1, .ok (some d2)] name = .ok d2) ∧
    (∀ (o1 o2 : StrategyOutcome) (name : String),
      strategyFails o1 → strategyFails o2 →
      downloadFile [o1, o2] name =
        .error ("All download strategies failed for " ++ name ++
          ". Last error: " ++ strategyFailMessage name o2)) := by
  refine ⟨?_, ?_, ?_⟩
  · intro o2 d1 name hd1
    simp [downloadFile, downloadFileRun, downloadFileAux,
      List.length_eq_zero, hd1]
  · intro o1 d2 name h1 hd2
    rcases o1 with e | d
    · simp [downloadFile, downloadFileRun, downloadFileAux,
        List.length_eq_zero, hd2]
    · rcases d with _ | d
      · simp [downloadFile, downloadFileRun, downloadFileAux,
          List.length_eq_zero, hd2]
      · have hd : d = [] := h1
        subst hd
        simp [downloadFile, downloadFileRun, downloadFileAux,
          List.length_eq_zero, hd2]
  · intro o1 o2 name h1 h2
    have step : ∀ (o : StrategyOutcome) (rest : List StrategyOutcome)
        (le : Option String) (n : Nat), strategyFails o →
        downloadFileAux name (o :: rest) le n =
          downloadFileAux name rest (some (strategyFailMessage name o)) (n + 1) := by
      intro o rest le n ho
      rcases o with e | d
      · rfl
      · rcases d with _ | d
        · rfl
        · have hd : d = [] := ho
          subst hd
          simp [downloadFileAux, strategyFailMessage]
    simp only [downloadFile, downloadFileRun,
      step o1 [o2] none 0 h1, step o2 [] _ _ h2, downloadFileAux,
      lastErrorMessage]

/-- Witness for `download_strategies_ordered` at concrete inputs. -/
theorem download_strategies_ordered_witness :
    downloadFile [.ok (some [7]), .error "x"] "f" = .ok [7] ∧
    downloadFile [.ok (some []), .ok (some [9])] "f" = .ok [9] ∧
    downloadFile [.ok (some []), .error "boom"] "f" =
      .error "All download strategies failed for f. Last error: boom" := by
  refine ⟨?_, ?_, ?_⟩
  · exact download_strategies_ordered.1 (.error "x") [7] "f" (by decide)
  · exact download_strategies_ordered.2.1 (.ok (some [])) [9] "f" rfl (by decide)
  · exact download_strategies_ordered.2.2 (.ok (some [])) (.error "boom") "f"
      rfl trivial

/-- C4 (counterexample): `_downloadFile` performs no URL well-formedness
check.  With a malformed URL both axios strategies reject (here with the
`Invalid URL` error axios produces); the run shows that BOTH strategy slots
were consumed before the aggregate failure — the download does not fail
immediately and strategies are attempted. -/
theorem download_no_url_validation_counterexample :
    downloadFileRun [.error "Invalid URL: not-a-url",
        .error "Invalid URL: not-a-url"] "f.pdf" =
      (.error
        "All download strategies failed for f.pdf. Last error: Invalid URL: not-a-url",
        2) := by
  decide

/-- C4 (amended): the download operation does not validate URLs before
trying transport strategies; a malformed URL is handed to every strategy in
order, each failure consumes a strategy slot, and after all strategies fail
the download raises the aggregate error carrying the last underlying
error. -/
theorem download_malformed_url_consumes_strategies
    (name e1 e2 : String) :
    downloadFileRun [.error e1, .error e2] name =
      (.error ("All download strategies failed for " ++ name ++
        ". Last error: " ++ e2), 2) := rfl

/-! ## Extraction dispatcher claims -/

/-- Branch selection: a `application/pdf` media type reaches exactly the PDF
branch of the dispatcher. -/
theorem extractTextFromFile_pdf (env : ExtractEnv) (fileName : String) :
    extractTextFromFile env fileName "application/pdf" =
      match env.pdfParse with
      | .ok t =>
        if (jsTrim t).length = 0 then
          .error ("No text or OCR text extracted from PDF: " ++ fileName)
        else finalCheck fileName t
      | .error _ =>
        match performOCRWithRetry env.ocrAttempts 2 with
        | .error e => .error e
        | .ok r =>
          if (jsTrim r.text).length = 0 then
            .error ("No text or OCR text extracted from PDF: " ++ fileName)
          else finalCheck fileName r.text := rfl

/-- Branch selection: the DOCX media type reaches exactly the word-processor
branch of the dispatcher. -/
theorem extractTextFromFile_docx (env : ExtractEnv) (fileName : String) :
    extractTextFromFile env fileName
        "application/vnd.openxmlformats-officedocument.wordprocessingml.document" =
      match env.docx with
      | .error e => .error e
      | .ok t =>
        if (jsTrim t).length = 0 then
          .error ("No text extracted from Word document: " ++ fileName)
        else finalCheck fileName t := rfl

/-- Branch selection: the legacy MS Word media type reaches exactly the
word-processor branch of the dispatcher. -/
theorem extractTextFromFile_msword (env : ExtractEnv) (fileName : String) :
    extractTextFromFile env fileName "application/msword" =
      match env.docx with
      | .error e => .error e
      | .ok t =>
        if (jsTrim t).length = 0 then
          .error ("No text extracted from Word document: " ++ fileName)
        else finalCheck fileName t := rfl

/-- C2 (counterexample): when the native PDF parse SUCCEEDS but yields empty
text, the dispatcher does NOT fall back to OCR — even with an OCR
environment that would return `"hello"` at confidence 95, extraction fails
with the PDF-emptiness error instead of returning the OCR text. -/
theorem pdf_empty_native_text_no_ocr_counterexample :
    extractTextFromFile
        ⟨.ok [], .ok [], [.ok ⟨"hello".toList, 95⟩], []⟩ "f.pdf"
        "application/pdf" =
      .error "No text or OCR text extracted from PDF: f.pdf" := by
  decide

/-- C2 (amended): for `application/pdf` files the OCR fallback runs only when
the native PDF parse throws; (1) on that path a non-empty OCR text is
returned; (2) on that path extraction fails only when the OCR text is empty
after trimming; (3) when the native parse succeeds — even with empty text —
the OCR environment is irrelevant: extraction returns the native text, or
fails if it is empty after trimming without consulting OCR. -/
theorem pdf_ocr_fallback_only_on_exception :
    (∀ (env : ExtractEnv) (fileName perr : String) (r : OCRResult),
      env.pdfParse = .error perr →
      performOCRWithRetry env.ocrAttempts 2 = .ok r →
      jsTrim r.text ≠ [] →
      extractTextFromFile env fileName "application/pdf" = .ok r.text) ∧
    (∀ (env : ExtractEnv) (fileName perr : String) (r : OCRResult),
      env.pdfParse = .error perr →
      performOCRWithRetry env.ocrAttempts 2 = .ok r →
      jsTrim r.text = [] →
      extractTextFromFile env fileName "application/pdf" =
        .error ("No text or OCR text extracted from PDF: " ++ fileName)) ∧
    (∀ (env : ExtractEnv) (fileName : String) (t : JStr),
      env.pdfParse = .ok t →
      extractTextFromFile env fileName "application/pdf" =
        if (jsTrim t).length = 0 then
          .error ("No text or OCR text extracted from PDF: " ++ fileName)
        else .ok t) := by
  refine ⟨?_, ?_, ?_⟩
  · intro env fileName perr r hp ho hr
    rw [extractTextFromFile_pdf, hp, ho]
    simp [finalCheck, List.length_eq_zero, hr]
  · intro env fileName perr r hp ho hr
    rw [extractTextFromFile_pdf, hp, ho]
    simp [List.length_eq_zero, hr]
  · intro env fileName t hp
    rw [extractTextFromFile_pdf, hp]
    rcases h : (jsTrim t).length with _ | n
    · simp [h]
    · simp [h, finalCheck]

/-- Witness for `pdf_ocr_fallback_only_on_exception` at concrete inputs. -/
theorem pdf_ocr_fallback_only_on_exception_witness :
    extractTextFromFile
        ⟨.error "bad xref", .ok [], [.ok ⟨"ocr out".toList, 80⟩], []⟩ "f.pdf"
        "application/pdf" = .ok "ocr out".toList :=
  pdf_ocr_fallback_only_on_exception.1
    ⟨.error "bad xref", .ok [], [.ok ⟨"ocr out".toList, 80⟩], []⟩
    "f.pdf" "bad xref" ⟨"ocr out".toList, 80⟩ rfl (by decide) (by decide)

/-- C5: when the native word-processor extraction throws, the dispatcher
fails with that error as-is for both word-processor media types, whatever
the OCR environment would have produced (no OCR fallback) — unlike the PDF
branch, where a throwing native parse falls back to OCR and returns its
non-empty text. -/
theorem word_extraction_error_not_masked :
    (∀ (pdfo : Except String JStr) (oa : List (Except String OCRResult))
      (u : JStr) (e fileName : String),
      extractTextFromFile ⟨pdfo, .error e, oa, u⟩ fileName
        "application/vnd.openxmlformats-officedocument.wordprocessingml.document" =
        .error e ∧
      extractTextFromFile ⟨pdfo, .error e, oa, u⟩ fileName
        "application/msword" = .error e) ∧
    (∀ (env : ExtractEnv) (fileName perr : String) (r : OCRResult),
      env.pdfParse = .error perr →
      performOCRWithRetry env.ocrAttempts 2 = .ok r →
      jsTrim r.text ≠ [] →
      extractTextFromFile env fileName "application/pdf" = .ok r.text) := by
  constructor
  · intro pdfo oa u e fileName
    constructor
    · rw [extractTextFromFile_docx]
    · rw [extractTextFromFile_msword]
  · intro env fileName perr r hp ho hr
    rw [extractTextFromFile_pdf, hp, ho]
    simp [finalCheck, List.length_eq_zero, hr]

/-- Witness for `word_extraction_error_not_masked` at concrete inputs. -/
theorem word_extraction_error_not_masked_witness :
    extractTextFromFile
        ⟨.ok [], .error "mammoth: corrupt container",
          [.ok ⟨"would be ocr".toList, 90⟩], []⟩ "d.docx"
        "application/vnd.openxmlformats-officedocument.wordprocessingml.document" =
      .error "mammoth: corrupt container" :=
  (word_extraction_error_not_masked.1 (.ok [])
    [.ok ⟨"would be ocr".toList, 90⟩] []
    "mammoth: corrupt container" "d.docx").1

/-- The successful files are exactly the files with successful non-empty
outcomes, in file iteration order. -/
theorem processFiles_successfulFiles (sp : JStr → List JStr) :
    ∀ l : List (String × Except String JStr),
      (processFiles sp l).successfulFiles =
        (l.filter (fun p => okNonempty p.2)).map Prod.fst
  | [] => rfl
  | (name, r) :: rest => by
    have ih := processFiles_successfulFiles sp rest
    rcases r with e | t
    · simpa [processFiles, okNonempty, List.filter_cons] using ih
    · by_cases h : 0 < (jsTrim t).length
      · simpa [processFiles, okNonempty, List.filter_cons, h] using ih
      · simpa [processFiles, okNonempty, List.filter_cons, h] using ih

/-- Each file lands in exactly one of the two lists: their lengths sum to
the number of files processed. -/
theorem processFiles_length_sum (sp : JStr → List JStr) :
    ∀ l : List (String × Except String JStr),
      (processFiles sp l).processingErrors.length +
        (processFiles sp l).successfulFiles.length = l.length
  | [] => rfl
  | (name, r) :: rest => by
    have ih := processFiles_length_sum sp rest
    rcases r with e | t
    · simp [processFiles]; omega
    · by_cases h : 0 < (jsTrim t).length
      · simp [processFiles, h]; omega
      · simp [processFiles, h]; omega

/-- The error list holds exactly one `Failed to process …` message per
failing file, in file iteration order. -/
theorem processFiles_errors (sp : JStr → List JStr) :
    ∀ l : List (String × Except String JStr),
      (processFiles sp l).processingErrors =
        l.filterMap (fun p =>
          if okNonempty p.2 then none else some (fileErrorMessage p))
  | [] => rfl
  | (name, r) :: rest => by
    have ih := processFiles_errors sp rest
    rcases r with e | t
    · simpa [processFiles, okNonempty, fileErrorMessage,
        List.filterMap_cons] using ih
    · by_cases h : 0 < (jsTrim t).length
      · simpa [processFiles, okNonempty, fileErrorMessage,
          List.filterMap_cons, h] using ih
      · simpa [processFiles, okNonempty, fileErrorMessage,
          List.filterMap_cons, h] using ih

/-- With no successful file, nothing is accumulated: the aggregate text is
empty. -/
theorem processFiles_fullText_of_no_success (sp : JStr → List JStr) :
    ∀ l : List (String × Except String JStr),
      l.countP (fun p => okNonempty p.2) = 0 →
      (processFiles sp l).fullText = []
  | [], _ => rfl
  | (name, r) :: rest, h => by
    rw [List.countP_cons] at h
    have hrest : rest.countP (fun p => okNonempty p.2) = 0 := by omega
    have ih := processFiles_fullText_of_no_success sp rest hrest
    rcases r with e | t
    · simpa [processFiles] using ih
    · have ht : ¬ 0 < (jsTrim t).length := fun hlt => by
        simp [okNonempty, hlt] at h
      simpa [processFiles, ht] using ih

/-- With at least one successful file, the aggregate text does not trim to
empty. -/
theorem processFiles_fullText_of_success (sp : JStr → List JStr) :
    ∀ l : List (String × Except String JStr),
      0 < l.countP (fun p => okNonempty p.2) →
      jsTrim (processFiles sp l).fullText ≠ []
  | [], h => absurd h (by simp)
  | (name, r) :: rest, h => by
    rcases r with e | t
    · have hrest : 0 < rest.countP (fun p => okNonempty p.2) := by
        rw [List.countP_cons] at h
        simpa [okNonempty] using h
      have ih := processFiles_fullText_of_success sp rest hrest
      simpa [processFiles] using ih
    · by_cases ht : 0 < (jsTrim t).length
      · have htne : jsTrim t ≠ [] := by
          intro hnil
          rw [hnil] at ht
          exact Nat.lt_irrefl 0 ht
        obtain ⟨c, hc, hcw⟩ : ∃ c ∈ t, Char.isWhitespace c = false := by
          by_contra hall
          push_neg at hall
          exact htne ((jsTrim_eq_nil_iff t).mpr (fun c hc =>
            eq_true_of_ne_false (hall c hc)))
        have hft : (processFiles sp ((name, Except.ok t) :: rest)).fullText =
            t ++ ('\n' :: '\n' :: []) ++ (processFiles sp rest).fullText := by
          simp [processFiles, ht]
        have hmem : c ∈ (processFiles sp ((name, Except.ok t) :: rest)).fullText := by
          rw [hft]
          exact List.mem_append.mpr (Or.inl (List.mem_append.mpr (Or.inl hc)))
        exact jsTrim_ne_nil_of_mem hmem hcw
      · have hrest : 0 < rest.countP (fun p => okNonempty p.2) := by
          rw [List.countP_cons] at h
          simpa [okNonempty, ht] using h
        have ih := processFiles_fullText_of_success sp rest hrest
        simpa [processFiles, ht] using ih

/-- Every run either ends in the catch block (a `runFailed` trace) or
returns successfully with exactly the two updates `processing` and the
final one. -/
theorem initiateProcessing_cases (env : OrchEnv) (sid uid : String) :
    (∃ prior llm msg, initiateProcessing env sid uid = runFailed prior llm msg) ∨
    (∃ upd res, initiateProcessing env sid uid =
      { updates := [.processing, upd], llmCalled := true, result := .ok res }) := by
  unfold initiateProcessing
  rcases hf : env.fetch with mf | os
  · exact Or.inl ⟨[], false, _, rfl⟩
  · rcases os with _ | s
    · exact Or.inl ⟨[], false, _, rfl⟩
    · dsimp only
      by_cases hu : s.user_id ≠ uid
      · rw [if_pos hu]
        exact Or.inl ⟨[], false, _, rfl⟩
      · rw [if_neg hu]
        rcases hup : env.updateProcessingError with _ | m1
        · dsimp only
          by_cases htext : (jsTrim (processFiles env.splitText
              (s.files.zip env.fileResults)).fullText).length = 0
          · rw [if_pos htext]
            exact Or.inl ⟨[.processing], false, _, rfl⟩
          · rw [if_neg htext]
            rcases hfin : env.finalUpdateError with _ | m2
            · exact Or.inr ⟨_, _, rfl⟩
            · exact Or.inl ⟨[.processing, _], true, _, rfl⟩
        · exact Or.inl ⟨[.processing], false, _, rfl⟩

/-- On the path where fetch, authorization and the `processing` update all
succeed and the aggregate text is non-empty, the run issues the final result
update as its second update call and invokes content generation. -/
theorem initiateProcessing_final_update (env : OrchEnv) (sid uid : String)
    (s : Session) (hfetch : env.fetch = .ok (some s))
    (hauth : s.user_id = uid) (hupd1 : env.updateProcessingError = none)
    (htext : jsTrim (orchAcc env s).fullText ≠ []) :
    (initiateProcessing env sid uid).updates[1]? = some (finalUpdateOf env s) ∧
      (initiateProcessing env sid uid).llmCalled = true := by
  have hlen : ¬ (jsTrim (orchAcc env s).fullText).length = 0 := by
    rw [List.length_eq_zero]
    exact htext
  unfold initiateProcessing
  rw [hfetch]
  dsimp only
  rw [hauth, if_neg (by simp), hupd1]
  dsimp only
  rw [if_neg (by simpa [orchAcc] using hlen)]
  rcases env.finalUpdateError with _ | m2
  · exact ⟨rfl, rfl⟩
  · exact ⟨rfl, rfl⟩

/-- On the same path with an empty aggregate text, the run aborts before
content generation with the aggregate extraction error and records only the
`processing` update before the catch block's `failed` update. -/
theorem initiateProcessing_aggregate_failure (env : OrchEnv)
    (sid uid : String) (s : Session) (hfetch : env.fetch = .ok (some s))
    (hauth : s.user_id = uid) (hupd1 : env.updateProcessingError = none)
    (htext : jsTrim (orchAcc env s).fullText = []) :
    initiateProcessing env sid uid = runFailed [.processing] false
      ("No text content could be extracted from any of the uploaded files. Errors: "
        ++ String.intercalate "; " (orchAcc env s).processingErrors) := by
  have hlen : (jsTrim (orchAcc env s).fullText).length = 0 := by
    rw [htext]
    rfl
  unfold initiateProcessing
  rw [hfetch]
  dsimp only
  rw [hauth, if_neg (by simp), hupd1]
  dsimp only
  rw [if_pos (by simpa [orchAcc] using hlen)]
  rfl

/-- On the success path (non-empty aggregate text, healthy store), the run's
trace is exactly: the two updates, content generation invoked, and the
success result returned. -/
theorem initiateProcessing_success (env : OrchEnv) (sid uid : String)
    (s : Session) (hfetch : env.fetch = .ok (some s))
    (hauth : s.user_id = uid) (hupd1 : env.updateProcessingError = none)
    (hupd2 : env.finalUpdateError = none)
    (htext : jsTrim (orchAcc env s).fullText ≠ []) :
    initiateProcessing env sid uid =
      { updates := [.processing, finalUpdateOf env s], llmCalled := true,
        result := .ok
          { successfulFiles := (orchAcc env s).successfulFiles,
            errors :=
              if 0 < (orchAcc env s).processingErrors.length then
                some (orchAcc env s).processingErrors
              else none,
            totalTextLength := (orchAcc env s).fullText.length } } := by
  have hlen : ¬ (jsTrim (orchAcc env s).fullText).length = 0 := by
    rw [List.length_eq_zero]
    exact htext
  unfold initiateProcessing
  rw [hfetch]
  dsimp only
  rw [hauth, if_neg (by simp), hupd1]
  dsimp only
  rw [if_neg (by simpa [orchAcc] using hlen), hupd2]
  rfl

/-- C1: for a session of `N` files of which `M` yield non-empty text, under
a healthy store the run persists terminal status `completed` when `M = N`
(the error list is empty), `completed_with_errors` when `0 < M < N`, and
`failed` when `M = 0`; in the `M = 0` case the run aborts with the aggregate
extraction error before any content-generation call (`llmCalled = false`). -/
theorem orchestrator_terminal_status (env : OrchEnv) (sid uid : String)
    (s : Session) (hfetch : env.fetch = .ok (some s))
    (hauth : s.user_id = uid) (hupd1 : env.updateProcessingError = none)
    (hupd2 : env.finalUpdateError = none)
    (hlen : env.fileResults.length = s.files.length) :
    (0 < successCount env s → successCount env s = s.files.length →
      terminalStatus (initiateProcessing env sid uid) = some "completed" ∧
      (orchAcc env s).processingErrors = []) ∧
    (0 < successCount env s → successCount env s < s.files.length →
      terminalStatus (initiateProcessing env sid uid) =
        some "completed_with_errors") ∧
    (successCount env s = 0 →
      terminalStatus (initiateProcessing env sid uid) = some "failed" ∧
      (initiateProcessing env sid uid).llmCalled = false ∧
      (initiateProcessing env sid uid).result = .error
        ("No text content could be extracted from any of the uploaded files. Errors: "
          ++ String.intercalate "; " (orchAcc env s).processingErrors)) := by
  have hzip : (s.files.zip env.fileResults).length = s.files.length := by
    rw [List.length_zip, hlen, Nat.min_self]
  have hsucc : (orchAcc env s).successfulFiles.length = successCount env s := by
    rw [orchAcc, processFiles_successfulFiles, List.length_map, successCount,
      List.countP_eq_length_filter]
  have hsum : (orchAcc env s).processingErrors.length +
      (orchAcc env s).successfulFiles.length =
      (s.files.zip env.fileResults).length :=
    processFiles_length_sum env.splitText _
  refine ⟨?_, ?_, ?_⟩
  · intro hpos heq
    have htext : jsTrim (orchAcc env s).fullText ≠ [] :=
      processFiles_fullText_of_success env.splitText _ hpos
    have herr : (orchAcc env s).processingErrors = [] := by
      rw [← List.length_eq_zero]
      omega
    rw [initiateProcessing_success env sid uid s hfetch hauth hupd1 hupd2 htext]
    exact ⟨by simp [terminalStatus, finalUpdateOf, DbUpdate.statusOf, herr],
      herr⟩
  · intro hpos hlt
    have htext : jsTrim (orchAcc env s).fullText ≠ [] :=
      processFiles_fullText_of_success env.splitText _ hpos
    have herr : 0 < (orchAcc env s).processingErrors.length := by omega
    rw [initiateProcessing_success env sid uid s hfetch hauth hupd1 hupd2 htext]
    simp [terminalStatus, finalUpdateOf, DbUpdate.statusOf, herr]
  · intro h0
    have hfull : (orchAcc env s).fullText = [] :=
      processFiles_fullText_of_no_success env.splitText _ h0
    have htext : jsTrim (orchAcc env s).fullText = [] := by
      rw [hfull]
      rfl
    rw [initiateProcessing_aggregate_failure env sid uid s hfetch hauth hupd1
      htext]
    exact ⟨by simp [terminalStatus, runFailed, DbUpdate.statusOf], rfl, rfl⟩

/-- Witness for `orchestrator_terminal_status` at a concrete input. -/
theorem orchestrator_terminal_status_witness :
    0 < successCount envA sessionA ∧
    successCount envA sessionA = sessionA.files.length ∧
    (terminalStatus (initiateProcessing envA "sid" "u1") = some "completed" ∧
      (orchAcc envA sessionA).processingErrors = []) :=
  ⟨by decide, by decide,
    (orchestrator_terminal_status envA "sid" "u1" sessionA rfl rfl rfl rfl
      rfl).1 (by decide) (by decide)⟩

/-- C8: whenever a run raises an error (any uncaught exception of steps
1–7), the last session update it issued is a `failed`-status update carrying
the very same error message, and the error is re-raised to the caller. -/
theorem run_error_persists_failed (env : OrchEnv) (sid uid m : String)
    (h : (initiateProcessing env sid uid).result = .error m) :
    (initiateProcessing env sid uid).updates.getLast? = some (.failed m) := by
  rcases initiateProcessing_cases env sid uid with
    ⟨prior, llm, msg, heq⟩ | ⟨upd, res, heq⟩
  · rw [heq] at h ⊢
    simp only [runFailed] at h ⊢
    rw [Except.error.injEq] at h
    rw [List.getLast?_concat, h]
  · rw [heq] at h
    simp at h

/-- Witness for `run_error_persists_failed` at a concrete input. -/
theorem run_error_persists_failed_witness :
    (initiateProcessing envFail "sid" "u").updates.getLast? =
      some (.failed "Failed to fetch session: db down") :=
  run_error_persists_failed envFail "sid" "u"
    "Failed to fetch session: db down" rfl

/-- C9: when the session exists but belongs to a different user, the run
raises the unauthorized error AND issues a `failed`-status update carrying
that message against that session's persisted record — the unauthorized
request mutates the other user's session state. -/
theorem unauthorized_marks_session_failed (env : OrchEnv)
    (sid uid : String) (s : Session) (hfetch : env.fetch = .ok (some s))
    (hauth : s.user_id ≠ uid) :
    initiateProcessing env sid uid =
      { updates :=
          [.failed "Unauthorized: Session does not belong to this user."],
        llmCalled := false,
        result :=
          .error "Unauthorized: Session does not belong to this user." } := by
  unfold initiateProcessing
  rw [hfetch]
  dsimp only
  rw [if_pos hauth]
  rfl

/-- Witness for `unauthorized_marks_session_failed`: `bob` requests
`alice`'s session. -/
theorem unauthorized_marks_session_failed_witness :
    initiateProcessing envB "sid" "bob" =
      { updates :=
          [.failed "Unauthorized: Session does not belong to this user."],
        llmCalled := false,
        result :=
          .error "Unauthorized: Session does not belong to this user." } :=
  unauthorized_marks_session_failed envB "sid" "bob" sessionB rfl (by decide)

/-- C10: in every run that reaches the final persistence step, the final
update partitions the session's files: the successful files are exactly the
files with non-empty extracted text in iteration order, the error list holds
exactly one message per failing file (built from its name), the two lengths
sum to the file count, and `processing_errors` is persisted as `none`
(`null`) — not an empty list — when no file failed. -/
theorem final_update_partitions_files (env : OrchEnv) (sid uid : String)
    (s : Session) (hfetch : env.fetch = .ok (some s))
    (hauth : s.user_id = uid) (hupd1 : env.updateProcessingError = none)
    (hlen : env.fileResults.length = s.files.length)
    (hpos : 0 < successCount env s) :
    (initiateProcessing env sid uid).updates[1]? =
      some (finalUpdateOf env s) ∧
    (orchAcc env s).successfulFiles =
      ((s.files.zip env.fileResults).filter
        (fun p => okNonempty p.2)).map Prod.fst ∧
    (orchAcc env s).processingErrors =
      (s.files.zip env.fileResults).filterMap (fun p =>
        if okNonempty p.2 then none else some (fileErrorMessage p)) ∧
    (orchAcc env s).processingErrors.length +
      (orchAcc env s).successfulFiles.length = s.files.length ∧
    ((orchAcc env s).processingErrors = [] →
      finalUpdateOf env s = .final "completed" env.gen.summary
        env.gen.flashcards env.gen.studyGuide
        (orchAcc env s).fullText.length (orchAcc env s).totalChunks
        (orchAcc env s).successfulFiles none) := by
  have htext : jsTrim (orchAcc env s).fullText ≠ [] :=
    processFiles_fullText_of_success env.splitText _ hpos
  refine ⟨(initiateProcessing_final_update env sid uid s hfetch hauth hupd1
    htext).1, ?_, ?_, ?_, ?_⟩
  · exact processFiles_successfulFiles env.splitText _
  · exact processFiles_errors env.splitText _
  · have hsum : (orchAcc env s).processingErrors.length +
        (orchAcc env s).successfulFiles.length =
        (s.files.zip env.fileResults).length :=
      processFiles_length_sum env.splitText _
    rw [List.length_zip, hlen, Nat.min_self] at hsum
    exact hsum
  · intro herr
    simp [finalUpdateOf, herr]

/-- Witness for `final_update_partitions_files` at a concrete input. -/
theorem final_update_partitions_files_witness :
    0 < successCount envC sessionC ∧
    (initiateProcessing envC "sid" "u1").updates[1]? =
      some (finalUpdateOf envC sessionC) :=
  ⟨by decide,
    (final_update_partitions_files envC "sid" "u1" sessionC rfl rfl rfl rfl
      (by decide)).1⟩

end Summaid
